import Mathlib

/-!
Verification of the phinex-blog-api backend (Go / Fiber / GORM).

This file gives a shallow embedding of the parts of the service layer and the
authorization middleware that the specification talks about, and proves or
refutes the specified properties against that embedding.

Conventions of the embedding:
* Database tables are lists of row structures; a GORM `First` with a `Where`
  clause is `List.find?`, a `Delete` with a `Where` clause is `List.filter`
  with the negated predicate, an `UPDATE ... SET col = col + 1` (or `- 1`)
  with a `Where` clause is `List.map` touching the matching rows.
* Counters are unbounded `Int` (the real columns are SQL integers; none of the
  verified properties exercises overflow).
* A `db.Transaction` body is a function producing `Except`-style results; an
  error result means the transaction rolled back, so the caller keeps the
  original database value.  Writes that the Go code performs outside any
  transaction are applied to the running state directly.
* Audit columns (`created_at`, `created_by`, ...) and media/profile columns are
  omitted: no verified property reads them.
* Failure injection: where a claim is about partial failure, the model takes
  explicit boolean flags saying which SQL statement fails; a failing statement
  performs no write, matching the database's statement semantics.
-/

namespace Phinex

/-- Splits a character list at every occurrence of `sep`.  This is the
semantics of Go's `strings.Split` for a one-character separator, written as a
structural recursion so that it evaluates inside the kernel. -/
def splitChar (sep : Char) : List Char → List (List Char)
  | [] => [[]]
  | c :: cs =>
    let r := splitChar sep cs
    if c = sep then [] :: r
    else
      match r with
      | [] => [[c]]
      | h :: t => (c :: h) :: t

/-- Go's `strings.Split(s, " ")` (middlewares/auth.go): split on every space. -/
def goSplitSpace (s : String) : List String :=
  (splitChar ' ' s.data).map String.mk

/-- Helper for `goContains`: does `sub` occur as a contiguous run in `l`? -/
def subAt : List Char → List Char → Bool
  | sub, l =>
    if sub.isPrefixOf l then true
    else
      match l with
      | [] => false
      | _ :: t => subAt sub t

/-- Go's `strings.Contains(s, sub)` (the `contains` helper in
middlewares/auth.go iterates `strings.Contains` over a substring list). -/
def goContains (s sub : String) : Bool := subAt sub.data s.data

/-- Role names, from the `RoleName` constants in models (Comments.go). -/
def roleNameAuthenticated : String := "Authenticated"

/-- Role name constant `RoleNameAnonymous`. -/
def roleNameAnonymous : String := "Anonymous"

/-- Role name constant `RoleNameBusinessOwner`. -/
def roleNameBusinessOwner : String := "BusinessOwner"

/-- Role name constant `RoleNameSuperAdmin`. -/
def roleNameSuperAdmin : String := "SuperAdmin"

/-- Role name constant `RoleNamePaymentAgent`. -/
def roleNamePaymentAgent : String := "PaymentAgent"

/-- Role name constant `RoleNameAdmin`. -/
def roleNameAdmin : String := "Admin"

/-- A user row (models/Users.go) together with the role names reachable
through `Preload("UserRoles.Role")` — the guards only ever read
`user.UserRoles[i].Role.RoleName`, so the join is flattened to a name list. -/
structure User where
  userId : String
  roles : List String
deriving Repr, DecidableEq

/-- A blog row (models Blogs), restricted to the identity and counter columns
the verified operations read or write. -/
structure Blog where
  blogId : String
  userId : String
  likesCount : Int
  commentsCount : Int
  sharesCount : Int
  viewsCount : Int
deriving Repr, DecidableEq

/-- A comment row (models/Comments.go): `refId` points at a blog for a
top-level comment and at a parent comment for a reply. -/
structure Comment where
  commentId : String
  refId : String
  userId : String
  likesCount : Int
  repliesCount : Int
deriving Repr, DecidableEq

/-- A like row (models Likes): `(userId, refId)` keyed, polymorphic `refId`. -/
structure Like where
  likeId : String
  refId : String
  userId : String
deriving Repr, DecidableEq

/-- A share row (models Shares). -/
structure Share where
  shareId : String
  refId : String
  userId : String
deriving Repr, DecidableEq

/-- A view row (models Views). -/
structure View where
  viewId : String
  refId : String
  userId : String
deriving Repr, DecidableEq

/-- A follow edge (models Follows): `followerId` follows `followingId`. -/
structure Follow where
  followId : String
  followerId : String
  followingId : String
deriving Repr, DecidableEq

/-- A pinned-blog promotion row (models/PinnedBlogs.go); dates are modelled as
integral timestamps since only the order `endDate ≥ now` is ever used. -/
structure PinnedBlog where
  pinnedBlogId : String
  blogId : String
  userId : String
  endDate : Int
deriving Repr, DecidableEq

/-- A per-user denormalized counters row (models/UsersStats.go), restricted to
the counters the verified operations touch. -/
structure UsersStats where
  userStatsId : String
  userId : String
  followersCount : Int
  followingsCount : Int
  totalLikes : Int
  totalPosts : Int
deriving Repr, DecidableEq

/-- The relational state: one list per table. -/
structure DB where
  users : List User
  blogs : List Blog
  comments : List Comment
  likes : List Like
  shares : List Share
  views : List View
  follows : List Follow
  pinnedBlogs : List PinnedBlog
  usersStats : List UsersStats
deriving Repr, DecidableEq

/-- The request principal attached by the guards (models ICurrentUser),
restricted to the fields the services read. -/
structure ICurrentUser where
  userId : String
  roles : List String
  isAuthenticated : Bool
deriving Repr, DecidableEq

/-- The data a guard extracts from a decoded JWT: the `userId` claim if it is
present and is a string (`decodedData["userId"].(string)`), else `none`. -/
structure TokenData where
  userId : Option String
deriving Repr, DecidableEq

/-- The environment's token decoder: `utils.JwtDecode` returns claims for a
token with a valid signature that is not expired, and an error (`none`)
otherwise.  The JWT library is external, so it is a parameter of the guards. -/
def JwtDecoder : Type := String → Option TokenData

/-- An inbound request as the guards see it: `c.Get("Authorization")` (empty
string when the header is missing, as in Go) and `c.OriginalURL()`. -/
structure Request where
  authorization : String
  url : String
deriving Repr, DecidableEq

/-- Outcome of a guard: `next u` is `c.Next()` with `c.Locals("user")` set to
`u` (or not set at all, for the skip-listed routes of AnonymousGuard), and
`reject s` is an early JSON response with HTTP status `s`. -/
inductive GuardResult where
  | next (user : Option ICurrentUser)
  | reject (status : Nat)
deriving Repr, DecidableEq

/-- The `Bearer` extraction every guard performs:
`parts := strings.Split(authorization, " ")` followed by
`len(parts) != 2 || parts[0] != "Bearer"` → reject. -/
def parseBearerToken (authorization : String) : Option String :=
  match goSplitSpace authorization with
  | [p0, p1] => if p0 == "Bearer" then some p1 else none
  | _ => none

/-- The token-to-user resolution sequence each guard repeats verbatim after
the header checks: decode the JWT (401 on error), read the `userId` claim as a
string (401 otherwise), and load the user with roles (401 when
`gorm.ErrRecordNotFound`).  The model assumes a healthy database, so the
500-on-other-database-error branch does not appear. -/
def resolveTokenUser (jwt : JwtDecoder) (db : DB) (tokenStr : String) :
    Except Nat User :=
  match jwt tokenStr with
  | none => .error 401
  | some td =>
    match td.userId with
    | none => .error 401
    | some uid =>
      match db.users.find? (fun u => u.userId == uid) with
      | none => .error 401
      | some u => .ok u

/-- Common body of AdminGuard, BusinessOwnerGuard, PaymentAgentGuard and
SuperAdminGuard (middlewares/auth.go): the four functions are textually
identical except for the role test, which checks membership in `allowed`. -/
def roleGuard (allowed : List String) (jwt : JwtDecoder) (db : DB)
    (req : Request) : GuardResult :=
  if req.authorization == "" then .reject 401
  else
    match parseBearerToken req.authorization with
    | none => .reject 401
    | some tok =>
      match resolveTokenUser jwt db tok with
      | .error s => .reject s
      | .ok u =>
        if u.roles.any (fun r => allowed.contains r) then
          .next (some { userId := u.userId, roles := u.roles, isAuthenticated := true })
        else .reject 403

/-- `AdminGuard`: Admin or SuperAdmin. -/
def AdminGuard : JwtDecoder → DB → Request → GuardResult :=
  roleGuard [roleNameAdmin, roleNameSuperAdmin]

/-- `BusinessOwnerGuard`: BusinessOwner, Admin or SuperAdmin. -/
def BusinessOwnerGuard : JwtDecoder → DB → Request → GuardResult :=
  roleGuard [roleNameBusinessOwner, roleNameAdmin, roleNameSuperAdmin]

/-- `PaymentAgentGuard`: PaymentAgent, Admin or SuperAdmin. -/
def PaymentAgentGuard : JwtDecoder → DB → Request → GuardResult :=
  roleGuard [roleNamePaymentAgent, roleNameAdmin, roleNameSuperAdmin]

/-- `SuperAdminGuard`: SuperAdmin only. -/
def SuperAdminGuard : JwtDecoder → DB → Request → GuardResult :=
  roleGuard [roleNameSuperAdmin]

/-- The URL substrings AnonymousGuard skips authentication for. -/
def anonymousSkipList : List String :=
  ["metrics", "bloggers", "sse", "webhook", "swagger-docs"]

/-- The role set AnonymousGuard accepts (all six role names). -/
def anonymousAllowedRoles : List String :=
  [roleNameAdmin, roleNameSuperAdmin, roleNameBusinessOwner,
   roleNamePaymentAgent, roleNameAuthenticated, roleNameAnonymous]

/-- `AnonymousGuard` (middlewares/auth.go): skip-listed URLs pass through
without a user; a missing header passes through with an unauthenticated
anonymous pseudo-user; otherwise the same token resolution as the strict
guards, then a 403 unless the user holds one of the six known roles. -/
def AnonymousGuard (jwt : JwtDecoder) (db : DB) (req : Request) : GuardResult :=
  if anonymousSkipList.any (fun sub => goContains req.url sub) then .next none
  else if req.authorization == "" then
    .next (some { userId := "", roles := [roleNameAnonymous], isAuthenticated := false })
  else
    match parseBearerToken req.authorization with
    | none => .reject 401
    | some tok =>
      match resolveTokenUser jwt db tok with
      | .error s => .reject s
      | .ok u =>
        if u.roles.any (fun r => anonymousAllowedRoles.contains r) then
          .next (some { userId := u.userId, roles := u.roles, isAuthenticated := false })
        else .reject 403

/-- The role set AuthenticatedGuard recognizes (all roles except Anonymous). -/
def authenticatedValidRoles : List String :=
  [roleNameAdmin, roleNameSuperAdmin, roleNameBusinessOwner,
   roleNamePaymentAgent, roleNameAuthenticated]

/-- `AuthenticatedGuard` (middlewares/auth.go): the 401 ladder of the other
guards, but the `if !isAuthenticated → 403` block is commented out in the
source, so every resolved user passes, with `IsAuthenticated` recording
whether any recognized role is held. -/
def AuthenticatedGuard (jwt : JwtDecoder) (db : DB) (req : Request) : GuardResult :=
  if req.authorization == "" then .reject 401
  else
    match parseBearerToken req.authorization with
    | none => .reject 401
    | some tok =>
      match resolveTokenUser jwt db tok with
      | .error s => .reject s
      | .ok u =>
        .next (some { userId := u.userId, roles := u.roles,
                      isAuthenticated := u.roles.any (fun r => authenticatedValidRoles.contains r) })

/-- The 401 failure ladder the specification ascribes to every guard: missing
header, malformed Bearer format, failed token validation, and a token whose
userId matches no user row each produce status 401. -/
def guardRejects401 (g : JwtDecoder → DB → Request → GuardResult) : Prop :=
  ∀ (jwt : JwtDecoder) (db : DB) (req : Request),
    (req.authorization = "" → g jwt db req = .reject 401) ∧
    (req.authorization ≠ "" → parseBearerToken req.authorization = none →
      g jwt db req = .reject 401) ∧
    (∀ tok, parseBearerToken req.authorization = some tok → jwt tok = none →
      g jwt db req = .reject 401) ∧
    (∀ tok td uid, parseBearerToken req.authorization = some tok → jwt tok = some td →
      td.userId = some uid → db.users.find? (fun u => u.userId == uid) = none →
      g jwt db req = .reject 401)

/-- The 403 failure mode: a resolved user none of whose roles is in the
guard's allowed set is rejected with status 403. -/
def guardForbids403 (g : JwtDecoder → DB → Request → GuardResult)
    (allowed : List String) : Prop :=
  ∀ (jwt : JwtDecoder) (db : DB) (req : Request) tok td uid u,
    parseBearerToken req.authorization = some tok → jwt tok = some td →
    td.userId = some uid → db.users.find? (fun x => x.userId == uid) = some u →
    u.roles.any (fun r => allowed.contains r) = false →
    g jwt db req = .reject 403

/-- The failure modes of `AnonymousGuard` on a non-skip-listed URL when a
header IS present: the 401 ladder for malformed / invalid / unknown-user
tokens, and 403 when none of the user's roles is recognized. -/
def anonymousGuardFailureModes : Prop :=
  ∀ (jwt : JwtDecoder) (db : DB) (req : Request),
    anonymousSkipList.any (fun sub => goContains req.url sub) = false →
    req.authorization ≠ "" →
    (parseBearerToken req.authorization = none → AnonymousGuard jwt db req = .reject 401) ∧
    (∀ tok, parseBearerToken req.authorization = some tok → jwt tok = none →
      AnonymousGuard jwt db req = .reject 401) ∧
    (∀ tok td uid, parseBearerToken req.authorization = some tok → jwt tok = some td →
      td.userId = some uid → db.users.find? (fun u => u.userId == uid) = none →
      AnonymousGuard jwt db req = .reject 401) ∧
    (∀ tok td uid u, parseBearerToken req.authorization = some tok → jwt tok = some td →
      td.userId = some uid → db.users.find? (fun x => x.userId == uid) = some u →
      u.roles.any (fun r => anonymousAllowedRoles.contains r) = false →
      AnonymousGuard jwt db req = .reject 403)

/-- Error outcomes a service method maps to HTTP statuses (fiber.Error codes
404, 500, 401, 422). -/
inductive Err where
  | notFound
  | internal
  | unauthorized
  | unprocessable
deriving Repr, DecidableEq

/-- `UPDATE blogs SET ... WHERE blog_id = blogId`: applies `f` to every
matching row. -/
def updateBlogs (db : DB) (blogId : String) (f : Blog → Blog) : DB :=
  { db with blogs := db.blogs.map (fun b => if b.blogId == blogId then f b else b) }

/-- `UPDATE comments SET ... WHERE comment_id = commentId`. -/
def updateComments (db : DB) (commentId : String) (f : Comment → Comment) : DB :=
  { db with comments := db.comments.map (fun c => if c.commentId == commentId then f c else c) }

/-- `UPDATE users_stats SET ... WHERE user_id = userId`. -/
def updateUsersStats (db : DB) (userId : String) (f : UsersStats → UsersStats) : DB :=
  { db with usersStats := db.usersStats.map (fun s => if s.userId == userId then f s else s) }

/-- Failure injection for the steps of `BlogsService.Delete`'s transaction:
`true` means the corresponding SQL statement returns an error (performing no
write). -/
structure DeleteBlogFailures where
  pinnedDelete : Bool
  statsUpdate : Bool
  commentsDelete : Bool
  likesDelete : Bool
  sharesDelete : Bool
  blogDelete : Bool
deriving Repr, DecidableEq

/-- The all-steps-succeed instance of `DeleteBlogFailures`. -/
def noDeleteBlogFailures : DeleteBlogFailures :=
  { pinnedDelete := false, statsUpdate := false, commentsDelete := false,
    likesDelete := false, sharesDelete := false, blogDelete := false }

namespace BlogsService

/-- The body of the `db.Transaction` closure of `BlogsService.Delete`
(blogs.service.go): load the blog (404 when absent), delete its PinnedBlog
rows, decrement the author's `total_posts`, delete the Comments, Likes and
Shares whose `ref_id` is the blog id, then delete the blog row.  Any failing
step aborts with an error. -/
def DeleteTx (db : DB) (blogId : String) (f : DeleteBlogFailures) : Except Err DB :=
  match db.blogs.find? (fun b => b.blogId == blogId) with
  | none => .error .notFound
  | some blog =>
    if f.pinnedDelete then .error .internal else
    let db1 := { db with pinnedBlogs := db.pinnedBlogs.filter (fun p => !(p.blogId == blogId)) }
    if f.statsUpdate then .error .internal else
    let db2 := updateUsersStats db1 blog.userId (fun s => { s with totalPosts := s.totalPosts - 1 })
    if f.commentsDelete then .error .internal else
    let db3 := { db2 with comments := db2.comments.filter (fun c => !(c.refId == blogId)) }
    if f.likesDelete then .error .internal else
    let db4 := { db3 with likes := db3.likes.filter (fun l => !(l.refId == blogId)) }
    if f.sharesDelete then .error .internal else
    let db5 := { db4 with shares := db4.shares.filter (fun sh => !(sh.refId == blogId)) }
    if f.blogDelete then .error .internal else
    .ok { db5 with blogs := db5.blogs.filter (fun b => !(b.blogId == blogId)) }

/-- `BlogsService.Delete`: runs `DeleteTx` inside `db.Transaction`; on error
the transaction rolls back, so the caller's state is the original `db`. -/
def Delete (db : DB) (blogId : String) (f : DeleteBlogFailures) : DB × Option Err :=
  match DeleteTx db blogId f with
  | .ok db2 => (db2, none)
  | .error e => (db, some e)

/-- `BlogsService.FindOne` (blogs.service.go): inside one transaction, load
the blog by id (404 when absent, rolling back), increment its `views_count`,
and insert one View row for it.  `newViewId` stands for `utils.GenerateID()`.
The returned blog is the row as loaded before the increment. -/
def FindOne (db : DB) (blogId : String) (cu : ICurrentUser) (newViewId : String) :
    DB × Except Err Blog :=
  match db.blogs.find? (fun b => b.blogId == blogId) with
  | none => (db, .error .notFound)
  | some blog =>
    let db1 := updateBlogs db blogId (fun b => { b with viewsCount := b.viewsCount + 1 })
    let db2 := { db1 with
      views := db1.views ++ [{ viewId := newViewId, refId := blogId, userId := cu.userId }] }
    (db2, .ok blog)

/-- The like / unlike response of `BlogsService.LikeBlog`: in the Go code the
`Liked` field is computed as `like.LikeId == ""` on the zero-or-loaded `like`
variable, and `LikesCount` is read from the zero-or-loaded `blog` variable. -/
structure LikeResponse where
  liked : Bool
  likesCount : Int
deriving Repr, DecidableEq

/-- `BlogsService.LikeBlog` (blogs.service.go): 401 for unauthenticated
callers; otherwise one transaction that toggles on the existence of a
`(user_id, ref_id)` Like row.  Unlike: delete the row, decrement the blog's
`likes_count` and the caller's `total_likes`; the `blog` variable stays
zero-valued, so the response carries `likesCount = 0`.  Like: insert a fresh
row (`newLikeId` stands for `utils.GenerateID()`), increment the blog's
`likes_count`, re-load the blog (rolling back when the blog id matches no
row), and increment the caller's `total_likes`; the response carries the
re-loaded (already incremented) `likes_count`.  On the like path the `like`
variable stays zero-valued so `like.LikeId == ""` is `true`. -/
def LikeBlog (db : DB) (blogId : String) (cu : ICurrentUser) (newLikeId : String) :
    DB × Except Err LikeResponse :=
  if !cu.isAuthenticated then (db, .error .unauthorized)
  else
    match db.likes.find? (fun l => l.userId == cu.userId && l.refId == blogId) with
    | some like =>
      let db1 := { db with likes := db.likes.filter (fun l => !(l.likeId == like.likeId)) }
      let db2 := updateBlogs db1 blogId (fun b => { b with likesCount := b.likesCount - 1 })
      let db3 := updateUsersStats db2 cu.userId (fun s => { s with totalLikes := s.totalLikes - 1 })
      (db3, .ok { liked := like.likeId == "", likesCount := 0 })
    | none =>
      let db1 := { db with
        likes := db.likes ++ [{ likeId := newLikeId, refId := blogId, userId := cu.userId }] }
      let db2 := updateBlogs db1 blogId (fun b => { b with likesCount := b.likesCount + 1 })
      match db2.blogs.find? (fun b => b.blogId == blogId) with
      | none => (db, .error .internal)
      | some blog =>
        let db3 := updateUsersStats db2 cu.userId (fun s => { s with totalLikes := s.totalLikes + 1 })
        (db3, .ok { liked := true, likesCount := blog.likesCount })

/-- `BlogsService.DeleteComment` (blogs.service.go): one transaction that
loads the comment (404 when absent), deletes its replies (comments whose
`ref_id` is the comment id) and its likes, then — when `ref_id` is non-empty —
resolves `ref_id` against the Blog table first (decrementing that blog's
`comments_count`) and falls back to decrementing `replies_count` on the
comment whose `comment_id` equals `ref_id`, and finally deletes the comment
row itself.  The two counter updates silently match zero rows when the parent
is gone. -/
def DeleteComment (db : DB) (commentId : String) : DB × Option Err :=
  match db.comments.find? (fun c => c.commentId == commentId) with
  | none => (db, some .notFound)
  | some comment =>
    let db1 := { db with comments := db.comments.filter (fun c => !(c.refId == commentId)) }
    let db2 := { db1 with likes := db1.likes.filter (fun l => !(l.refId == commentId)) }
    let db3 :=
      if comment.refId == "" then db2
      else
        match db2.blogs.find? (fun b => b.blogId == comment.refId) with
        | some _ =>
          updateBlogs db2 comment.refId (fun b => { b with commentsCount := b.commentsCount - 1 })
        | none =>
          updateComments db2 comment.refId (fun c => { c with repliesCount := c.repliesCount - 1 })
    ({ db3 with comments := db3.comments.filter (fun c => !(c.commentId == commentId)) }, none)

end BlogsService

/-- Response of `UsersService.FollowUnfollowUser`. -/
structure FollowResponse where
  followed : Bool
deriving Repr, DecidableEq

/-- Failure injection for `UsersService.FollowUnfollowUser`: `rowOp` is the
Follow-row create or delete, the other two flags are the two UsersStats
counter updates.  A `true` flag means that SQL statement errors without
writing. -/
structure FollowFailures where
  rowOp : Bool
  followersUpdate : Bool
  followingsUpdate : Bool
deriving Repr, DecidableEq

/-- The all-steps-succeed instance of `FollowFailures`. -/
def noFollowFailures : FollowFailures :=
  { rowOp := false, followersUpdate := false, followingsUpdate := false }

namespace UsersService

/-- `UsersService.FollowUnfollowUser` (users.service.go): NOT wrapped in a
transaction.  Toggle on the existence of a `(follower_id, following_id)`
Follow row; delete (422 on failure) or create (500 on failure) the row, then
update `followers_count` on the target and `followings_count` on the actor as
two separate statements whose errors are only logged — the function returns a
success response even when they fail.  `newFollowId` stands for
`utils.GenerateID()`. -/
def FollowUnfollowUser (db : DB) (followerId followingId : String)
    (newFollowId : String) (f : FollowFailures) : DB × Except Err FollowResponse :=
  match db.follows.find? (fun fl => fl.followerId == followerId && fl.followingId == followingId) with
  | some fl =>
    if f.rowOp then (db, .error .unprocessable)
    else
      let db1 := { db with follows := db.follows.filter (fun x => !(x.followId == fl.followId)) }
      let db2 := if f.followersUpdate then db1 else
        updateUsersStats db1 followingId (fun s => { s with followersCount := s.followersCount - 1 })
      let db3 := if f.followingsUpdate then db2 else
        updateUsersStats db2 followerId (fun s => { s with followingsCount := s.followingsCount - 1 })
      (db3, .ok { followed := false })
  | none =>
    if f.rowOp then (db, .error .internal)
    else
      let db1 := { db with
        follows := db.follows ++ [{ followId := newFollowId, followerId := followerId, followingId := followingId }] }
      let db2 := if f.followersUpdate then db1 else
        updateUsersStats db1 followingId (fun s => { s with followersCount := s.followersCount + 1 })
      let db3 := if f.followingsUpdate then db2 else
        updateUsersStats db2 followerId (fun s => { s with followingsCount := s.followingsCount + 1 })
      (db3, .ok { followed := true })

end UsersService

/-- Pagination metadata (models/IPagination.go). -/
structure PaginationMetadata where
  currentPage : Int
  itemsPerPage : Int
  totalItems : Int
  totalPages : Int
  hasNextPage : Bool
  hasPreviousPage : Bool
deriving Repr, DecidableEq

/-- Go's `int64` division: truncation toward zero. -/
def goDiv (a b : Int) : Int := a.tdiv b

/-- The metadata block every paginated endpoint builds:
`totalPages := (totalItems + limit - 1) / limit` in Go arithmetic,
`hasNextPage := page < totalPages`, `hasPreviousPage := page > 1`. -/
def paginationMetadata (page limit totalItems : Int) : PaginationMetadata :=
  let totalPages := goDiv (totalItems + limit - 1) limit
  { currentPage := page, itemsPerPage := limit, totalItems := totalItems,
    totalPages := totalPages,
    hasNextPage := decide (page < totalPages),
    hasPreviousPage := decide (page > 1) }

/-- `Limit(limit).Offset((page - 1) * limit)` applied to the ordered result
set.  Faithful on `page ≥ 1, limit ≥ 0`, the domain on which the pagination
properties are asserted (GORM cancels the LIMIT clause for negative
arguments, which is not modelled). -/
def pageSlice {A : Type} (rows : List A) (page limit : Int) : List A :=
  (rows.drop ((page - 1) * limit).toNat).take limit.toNat

/-- A paginated response (models/IPagination.go), with typed data. -/
structure Paginated (A : Type) where
  data : List A
  metadata : PaginationMetadata
deriving Repr, DecidableEq

/-- Ceiling of the rational `a / b` (for `b ≠ 0`) via `⌈x⌉ = -⌊-x⌋`;
`Int.fdiv` is floor division.  This is the specification's
`ceil(totalItems / limit)`, defined independently of the Go formula. -/
def specCeilDiv (a b : Int) : Int := -((-a).fdiv b)

/-- The specification's pagination invariant for one response:
`totalPages = ceil(totalItems / limit)`, `hasNextPage = page < totalPages`,
`hasPreviousPage = page > 1`, and at most `limit` data rows. -/
def paginationInvariant {A : Type} (resp : Paginated A) (page limit : Int) : Prop :=
  resp.metadata.totalPages = specCeilDiv resp.metadata.totalItems limit ∧
  resp.metadata.hasNextPage = decide (page < resp.metadata.totalPages) ∧
  resp.metadata.hasPreviousPage = decide (page > 1) ∧
  (resp.data.length : Int) ≤ limit

namespace UsersService

/-- The users-service endpoints clamp the page: `if page < 1 { page = 1 }`. -/
def clampPage (page : Int) : Int := if page < 1 then 1 else page

/-- The users-service endpoints clamp the page size:
`if limit < 1 { limit = 20 }`. -/
def clampLimit (limit : Int) : Int := if limit < 1 then 20 else limit

/-- `UsersService.FindAllUsers` (users.service.go), modelled with an empty
search string: clamp page and limit, count all users, return one page (random
order does not affect the verified properties).  The following-flag
enrichment preserves the rows and is omitted. -/
def FindAllUsers (db : DB) (page limit : Int) : Paginated User :=
  let page := clampPage page
  let limit := clampLimit limit
  { data := pageSlice db.users page limit,
    metadata := paginationMetadata page limit db.users.length }

/-- `UsersService.FindUserFollowers` (users.service.go), empty search:
`totalItems` counts the Follow rows pointing at `userId`; the data page is the
users whose id occurs among the plucked `follower_id`s. -/
def FindUserFollowers (db : DB) (userId : String) (page limit : Int) : Paginated User :=
  let page := clampPage page
  let limit := clampLimit limit
  let followerIds := (db.follows.filter (fun fl => fl.followingId == userId)).map Follow.followerId
  { data := pageSlice (db.users.filter (fun u => followerIds.contains u.userId)) page limit,
    metadata := paginationMetadata page limit
      (db.follows.filter (fun fl => fl.followingId == userId)).length }

/-- `UsersService.FindUserFollowings` (users.service.go), empty search:
mirror image of `FindUserFollowers`. -/
def FindUserFollowings (db : DB) (userId : String) (page limit : Int) : Paginated User :=
  let page := clampPage page
  let limit := clampLimit limit
  let followingIds := (db.follows.filter (fun fl => fl.followerId == userId)).map Follow.followingId
  { data := pageSlice (db.users.filter (fun u => followingIds.contains u.userId)) page limit,
    metadata := paginationMetadata page limit
      (db.follows.filter (fun fl => fl.followerId == userId)).length }

end UsersService

namespace BlogsService

/-- `BlogsService.FindAll` (blogs.service.go): count all blogs and return one
page, newest first (the ordering does not affect the verified properties).
Unlike the users service, the blogs endpoints perform no clamping of `page`
or `limit`. -/
def FindAll (db : DB) (page limit : Int) : Paginated Blog :=
  { data := pageSlice db.blogs page limit,
    metadata := paginationMetadata page limit db.blogs.length }

/-- `BlogsService.FindComments` (blogs.service.go): comments whose `ref_id`
is the blog id, paginated; no clamping. -/
def FindComments (db : DB) (blogId : String) (page limit : Int) : Paginated Comment :=
  let rows := db.comments.filter (fun c => c.refId == blogId)
  { data := pageSlice rows page limit,
    metadata := paginationMetadata page limit rows.length }

/-- `BlogsService.FindReplies` (blogs.service.go): comments whose `ref_id` is
the parent comment id, paginated; no clamping. -/
def FindReplies (db : DB) (commentId : String) (page limit : Int) : Paginated Comment :=
  let rows := db.comments.filter (fun c => c.refId == commentId)
  { data := pageSlice rows page limit,
    metadata := paginationMetadata page limit rows.length }

/-- `BlogsService.FindPinnedBlogs` (blogs.service.go): pinned rows still
active (`end_date >= now`), paginated; the data are the preloaded blogs with
the nil entries dropped; no clamping. -/
def FindPinnedBlogs (db : DB) (now : Int) (page limit : Int) : Paginated Blog :=
  let rows := db.pinnedBlogs.filter (fun p => now ≤ p.endDate)
  { data := (pageSlice rows page limit).filterMap
      (fun p => db.blogs.find? (fun b => b.blogId == p.blogId)),
    metadata := paginationMetadata page limit rows.length }

end BlogsService

/-- The empty database, used to build concrete witness states. -/
def emptyDB : DB :=
  { users := [], blogs := [], comments := [], likes := [], shares := [],
    views := [], follows := [], pinnedBlogs := [], usersStats := [] }

/-- A database holding exactly one user. -/
def dbOneUser : DB := { emptyDB with users := [{ userId := "u1", roles := [] }] }

/-- A database with one blog by `u1`, a stats row for `u1`, and one comment,
like, share and pinned-blog row attached to the blog. -/
def dbBlogWorld : DB :=
  { emptyDB with
    blogs := [{ blogId := "b1", userId := "u1", likesCount := 1,
                commentsCount := 1, sharesCount := 1, viewsCount := 0 }],
    comments := [{ commentId := "c1", refId := "b1", userId := "u2",
                   likesCount := 0, repliesCount := 0 }],
    likes := [{ likeId := "l1", refId := "b1", userId := "u2" }],
    shares := [{ shareId := "s1", refId := "b1", userId := "u2" }],
    pinnedBlogs := [{ pinnedBlogId := "p1", blogId := "b1", userId := "u1", endDate := 9 }],
    usersStats := [{ userStatsId := "st1", userId := "u1", followersCount := 0,
                     followingsCount := 0, totalLikes := 0, totalPosts := 3 }] }

/-- A database with one blog with five likes on record and a Like row by `u1`
on it, plus a stats row for `u1`. -/
def dbLiked : DB :=
  { emptyDB with
    blogs := [{ blogId := "b1", userId := "u9", likesCount := 5,
                commentsCount := 0, sharesCount := 0, viewsCount := 0 }],
    likes := [{ likeId := "l1", refId := "b1", userId := "u1" }],
    usersStats := [{ userStatsId := "st1", userId := "u1", followersCount := 0,
                     followingsCount := 0, totalLikes := 5, totalPosts := 0 }] }

/-- A database with stats rows for two users `a` and `b` and no follow edge. -/
def dbTwoStats : DB :=
  { emptyDB with
    usersStats := [{ userStatsId := "sa", userId := "a", followersCount := 2,
                     followingsCount := 3, totalLikes := 0, totalPosts := 0 },
                   { userStatsId := "sb", userId := "b", followersCount := 4,
                     followingsCount := 5, totalLikes := 0, totalPosts := 0 }] }

/-- A database holding one comment whose `ref_id` matches neither a Blog row
nor a Comment row — the state a reply is left in after its parent comment was
removed by a blog deletion (blog deletion removes the blog's comments but not
their replies). -/
def dbDangling : DB :=
  { emptyDB with
    comments := [{ commentId := "c1", refId := "gone", userId := "u1",
                   likesCount := 0, repliesCount := 0 }] }

/-- A database with a blog, a top-level comment on it and a reply to that
comment, for exercising `DeleteComment`. -/
def dbCommented : DB :=
  { emptyDB with
    blogs := [{ blogId := "b1", userId := "u1", likesCount := 0,
                commentsCount := 1, sharesCount := 0, viewsCount := 0 }],
    comments := [{ commentId := "c1", refId := "b1", userId := "u2",
                   likesCount := 0, repliesCount := 1 },
                 { commentId := "c2", refId := "c1", userId := "u3",
                   likesCount := 0, repliesCount := 0 }] }

/-!
Theorems.  General-purpose lemmas come first, then one theorem per claim of
the specification (with its witness or counterexample).
-/

theorem find?_congrF {A : Type} (p q : A → Bool) (l : List A) (h : ∀ x, p x = q x) :
    l.find? p = l.find? q := by
  induction l with
  | nil => rfl
  | cons a t ih =>
    simp only [List.find?_cons, h a]
    cases q a <;> simp [ih]

theorem find?_map_key {A : Type} (p : A → Bool) (F : A → A)
    (hp : ∀ x, p (F x) = p x) (l : List A) :
    (l.map F).find? p = (l.find? p).map F := by
  rw [List.find?_map]
  have he : l.find? (p ∘ F) = l.find? p :=
    find?_congrF _ _ _ (fun x => by simp [Function.comp_apply, hp])
  rw [he]

theorem map_map_id {A : Type} (F G : A → A) (h : ∀ x, G (F x) = x) (l : List A) :
    (l.map F).map G = l := by
  rw [List.map_map]
  have hc : (G ∘ F) = id := funext (fun x => h x)
  rw [hc, List.map_id]

theorem map_proj_of_preserve {A B : Type} (proj : A → B) (F : A → A)
    (h : ∀ x, proj (F x) = proj x) (l : List A) :
    (l.map F).map proj = l.map proj := by
  rw [List.map_map]
  exact List.map_congr_left (fun x _ => h x)

theorem goDiv_eq_specCeilDiv (t l : Int) (ht : 0 ≤ t) (hl : 1 ≤ l) :
    goDiv (t + l - 1) l = specCeilDiv t l := by
  unfold goDiv specCeilDiv
  have hlne : l ≠ 0 := by omega
  rw [Int.tdiv_eq_ediv (by omega) (by omega), Int.fdiv_eq_ediv _ (by omega)]
  have hmod : l * (t / l) + t % l = t := Int.ediv_add_emod t l
  have hmod2 : (t / l) * l + t % l = t := by rw [mul_comm] at hmod; exact hmod
  have hr0 : 0 ≤ t % l := Int.emod_nonneg t hlne
  have hrl : t % l < l := Int.emod_lt_of_pos t (by omega)
  by_cases hc : t % l = 0
  · have h1 : t + l - 1 = (l - 1) + (t / l) * l := by rw [hc] at hmod2; linarith
    have h2 : -t = 0 + (-(t / l)) * l := by rw [hc] at hmod2; linarith
    have e1 : (l - 1) / l = 0 := Int.ediv_eq_zero_of_lt (by omega) (by omega)
    have e2 : (0 : Int) / l = 0 := Int.zero_ediv l
    rw [h1, h2, Int.add_mul_ediv_right _ _ hlne, Int.add_mul_ediv_right _ _ hlne, e1, e2]
    ring
  · have h1 : t + l - 1 = (t % l - 1) + (t / l + 1) * l := by linarith
    have h2 : -t = (l - t % l) + (-(t / l) - 1) * l := by linarith
    have e1 : (t % l - 1) / l = 0 := Int.ediv_eq_zero_of_lt (by omega) (by omega)
    have e2 : (l - t % l) / l = 0 := Int.ediv_eq_zero_of_lt (by omega) (by omega)
    rw [h1, h2, Int.add_mul_ediv_right _ _ hlne, Int.add_mul_ediv_right _ _ hlne, e1, e2]
    ring

theorem pageSlice_length_le {A : Type} (rows : List A) (page limit : Int) :
    (pageSlice rows page limit).length ≤ limit.toNat :=
  List.length_take_le _ _

theorem paginationInvariant_mk {A : Type} (data : List A) (page limit : Int) (t : Nat)
    (_hp : 1 ≤ page) (hl : 1 ≤ limit) (hd : data.length ≤ limit.toNat) :
    paginationInvariant ⟨data, paginationMetadata page limit (t : Int)⟩ page limit := by
  refine ⟨?_, rfl, rfl, ?_⟩
  · exact goDiv_eq_specCeilDiv _ _ (Int.ofNat_nonneg t) hl
  · calc (data.length : Int) ≤ (limit.toNat : Int) := Int.ofNat_le.mpr hd
      _ = limit := Int.toNat_of_nonneg (by omega)

/-- C2 (counterexample): the claim asserts the invariant for ANY integer
inputs, but `FindAllUsers` replaces a `limit` below 1 by the default 20, so at
`page = 1, limit = -1` on a one-user database the returned `totalPages` is
`ceil(1 / 20) = 1` while the claim's `ceil(totalItems / limit)` is
`ceil(1 / -1) = -1`. -/
theorem C2_counterexample :
    (UsersService.FindAllUsers dbOneUser 1 (-1)).metadata.totalPages ≠
      specCeilDiv (UsersService.FindAllUsers dbOneUser 1 (-1)).metadata.totalItems (-1) := by
  decide

/-- C2 (amended): for `page ≥ 1` and `limit ≥ 1` (every smaller value is
either replaced by a default or out of the operations' domain), each paginated
list operation returns metadata with `totalPages = ceil(totalItems / limit)`,
`hasNextPage = page < totalPages`, `hasPreviousPage = page > 1`, and a data
page of at most `limit` rows. -/
theorem C2_pagination_amended (db : DB) (userId blogId commentId : String)
    (now page limit : Int) (hp : 1 ≤ page) (hl : 1 ≤ limit) :
    paginationInvariant (UsersService.FindAllUsers db page limit) page limit ∧
    paginationInvariant (UsersService.FindUserFollowers db userId page limit) page limit ∧
    paginationInvariant (UsersService.FindUserFollowings db userId page limit) page limit ∧
    paginationInvariant (BlogsService.FindAll db page limit) page limit ∧
    paginationInvariant (BlogsService.FindComments db blogId page limit) page limit ∧
    paginationInvariant (BlogsService.FindReplies db commentId page limit) page limit ∧
    paginationInvariant (BlogsService.FindPinnedBlogs db now page limit) page limit := by
  have hcp : UsersService.clampPage page = page := by
    unfold UsersService.clampPage; rw [if_neg]; omega
  have hcl : UsersService.clampLimit limit = limit := by
    unfold UsersService.clampLimit; rw [if_neg]; omega
  refine ⟨?_, ?_, ?_, ?_, ?_, ?_, ?_⟩
  · unfold UsersService.FindAllUsers
    rw [hcp, hcl]
    exact paginationInvariant_mk _ _ _ _ hp hl (pageSlice_length_le _ _ _)
  · unfold UsersService.FindUserFollowers
    rw [hcp, hcl]
    exact paginationInvariant_mk _ _ _ _ hp hl (pageSlice_length_le _ _ _)
  · unfold UsersService.FindUserFollowings
    rw [hcp, hcl]
    exact paginationInvariant_mk _ _ _ _ hp hl (pageSlice_length_le _ _ _)
  · exact paginationInvariant_mk _ _ _ _ hp hl (pageSlice_length_le _ _ _)
  · exact paginationInvariant_mk _ _ _ _ hp hl (pageSlice_length_le _ _ _)
  · exact paginationInvariant_mk _ _ _ _ hp hl (pageSlice_length_le _ _ _)
  · exact paginationInvariant_mk _ _ _ _ hp hl
      (le_trans (List.length_filterMap_le _ _) (pageSlice_length_le _ _ _))

/-- C2 (witness): the amended invariant instantiated on the empty database at
`page = 1, limit = 5`. -/
theorem C2_pagination_amended_witness :
    (1 : Int) ≤ 1 ∧ (1 : Int) ≤ 5 ∧
    paginationInvariant (UsersService.FindAllUsers emptyDB 1 5) 1 5 :=
  ⟨by decide, by decide,
    (C2_pagination_amended emptyDB "" "" "" 0 1 5 (by decide) (by decide)).1⟩

/-- C3: deleting an existing blog succeeds and leaves no Comment, Like or
Share row whose `ref_id` is the blog id, no PinnedBlog row for the blog, and
no Blog row with the blog id, while every stats row of the author has
`total_posts` decremented by exactly one (and no other stats row changes). -/
theorem C3_delete_blog_cascades (db : DB) (blogId : String) (blog : Blog)
    (hfind : db.blogs.find? (fun b => b.blogId == blogId) = some blog) :
    let res := BlogsService.Delete db blogId noDeleteBlogFailures
    res.2 = none ∧
    (∀ c ∈ res.1.comments, c.refId ≠ blogId) ∧
    (∀ l ∈ res.1.likes, l.refId ≠ blogId) ∧
    (∀ sh ∈ res.1.shares, sh.refId ≠ blogId) ∧
    (∀ p ∈ res.1.pinnedBlogs, p.blogId ≠ blogId) ∧
    (∀ b ∈ res.1.blogs, b.blogId ≠ blogId) ∧
    res.1.usersStats = db.usersStats.map
      (fun s => if s.userId == blog.userId
        then { s with totalPosts := s.totalPosts - 1 } else s) := by
  unfold BlogsService.Delete BlogsService.DeleteTx
  rw [hfind]
  simp only [noDeleteBlogFailures, Bool.false_eq_true, if_false, updateUsersStats]
  refine ⟨by trivial, ?_, ?_, ?_, ?_, ?_, by trivial⟩ <;>
    · intro x hx
      rw [List.mem_filter] at hx
      simpa using hx.2

/-- C3 (witness): the cascade on a concrete one-blog database. -/
theorem C3_delete_blog_cascades_witness :
    (dbBlogWorld.blogs.find? (fun b => b.blogId == "b1") =
      some { blogId := "b1", userId := "u1", likesCount := 1,
             commentsCount := 1, sharesCount := 1, viewsCount := 0 }) ∧
    (BlogsService.Delete dbBlogWorld "b1" noDeleteBlogFailures).2 = none :=
  ⟨by decide,
    (C3_delete_blog_cascades dbBlogWorld "b1"
      { blogId := "b1", userId := "u1", likesCount := 1,
        commentsCount := 1, sharesCount := 1, viewsCount := 0 } (by decide)).1⟩

/-- C4: `BlogsService.Delete` is all-or-nothing — whenever any injected step
failure (or the blog being absent) makes it return an error, the database
value it leaves behind is exactly the original one, because every step runs
inside one `db.Transaction` that rolls back on error. -/
theorem C4_delete_all_or_nothing (db : DB) (blogId : String) (f : DeleteBlogFailures)
    (h : (BlogsService.Delete db blogId f).2.isSome = true) :
    (BlogsService.Delete db blogId f).1 = db := by
  unfold BlogsService.Delete at h ⊢
  cases htx : BlogsService.DeleteTx db blogId f with
  | ok d => rw [htx] at h; simp at h
  | error e => rfl

/-- C4 (witness): a failing `total_posts` decrement aborts a delete on a
concrete database and leaves it unchanged. -/
theorem C4_delete_all_or_nothing_witness :
    (BlogsService.Delete dbBlogWorld "b1"
      { noDeleteBlogFailures with statsUpdate := true }).2.isSome = true ∧
    (BlogsService.Delete dbBlogWorld "b1"
      { noDeleteBlogFailures with statsUpdate := true }).1 = dbBlogWorld :=
  ⟨by decide,
    C4_delete_all_or_nothing dbBlogWorld "b1"
      { noDeleteBlogFailures with statsUpdate := true } (by decide)⟩

/-- C7: a successful `FindOne` on an existing blog returns that blog,
increments `views_count` by exactly one on the blog's row (touching no other
blog), and appends exactly one View row whose `ref_id` is the blog id — all
inside the same transaction, so the not-found case changes nothing. -/
theorem C7_findOne_counts_view (db : DB) (blogId : String) (cu : ICurrentUser)
    (newViewId : String) (blog : Blog)
    (hfind : db.blogs.find? (fun b => b.blogId == blogId) = some blog) :
    let res := BlogsService.FindOne db blogId cu newViewId
    res.2 = .ok blog ∧
    res.1.blogs = db.blogs.map (fun b => if b.blogId == blogId
      then { b with viewsCount := b.viewsCount + 1 } else b) ∧
    (res.1.views.filter (fun v => v.refId == blogId)).length =
      (db.views.filter (fun v => v.refId == blogId)).length + 1 ∧
    res.1.views = db.views ++ [{ viewId := newViewId, refId := blogId, userId := cu.userId }] := by
  unfold BlogsService.FindOne
  rw [hfind]
  simp only [updateBlogs]
  refine ⟨by trivial, by trivial, ?_, by trivial⟩
  simp [List.filter_append]

/-- C7 (witness): one fetch of a concrete blog records one view. -/
theorem C7_findOne_counts_view_witness :
    (dbBlogWorld.blogs.find? (fun b => b.blogId == "b1") =
      some { blogId := "b1", userId := "u1", likesCount := 1,
             commentsCount := 1, sharesCount := 1, viewsCount := 0 }) ∧
    (BlogsService.FindOne dbBlogWorld "b1"
        { userId := "u7", roles := [], isAuthenticated := true } "v1").2 =
      .ok { blogId := "b1", userId := "u1", likesCount := 1,
            commentsCount := 1, sharesCount := 1, viewsCount := 0 } :=
  ⟨by decide,
    (C7_findOne_counts_view dbBlogWorld "b1"
      { userId := "u7", roles := [], isAuthenticated := true } "v1"
      { blogId := "b1", userId := "u1", likesCount := 1,
        commentsCount := 1, sharesCount := 1, viewsCount := 0 } (by decide)).1⟩

/-- C5: liking then unliking an existing blog with no prior Like row by the
caller returns `liked = true` (with the incremented count) then
`liked = false`, and leaves every blog row and every stats row exactly as
before the first call. -/
theorem C5_like_unlike_roundtrip (db : DB) (blogId : String) (cu : ICurrentUser)
    (id1 id2 : String) (blog : Blog)
    (hauth : cu.isAuthenticated = true)
    (hnolike : db.likes.find? (fun l => l.userId == cu.userId && l.refId == blogId) = none)
    (hfind : db.blogs.find? (fun b => b.blogId == blogId) = some blog)
    (hid : (id1 == "") = false) :
    (BlogsService.LikeBlog db blogId cu id1).2 =
      .ok { liked := true, likesCount := blog.likesCount + 1 } ∧
    (BlogsService.LikeBlog (BlogsService.LikeBlog db blogId cu id1).1 blogId cu id2).2 =
      .ok { liked := false, likesCount := 0 } ∧
    (BlogsService.LikeBlog (BlogsService.LikeBlog db blogId cu id1).1 blogId cu id2).1.blogs =
      db.blogs ∧
    (BlogsService.LikeBlog (BlogsService.LikeBlog db blogId cu id1).1 blogId cu id2).1.usersStats =
      db.usersStats := by
  have hb : blog.blogId = blogId := by simpa using List.find?_some hfind
  have h2 : ((db.blogs.map (fun b => if b.blogId == blogId
        then { b with likesCount := b.likesCount + 1 } else b)).find?
        (fun b => b.blogId == blogId)) =
      some { blog with likesCount := blog.likesCount + 1 } := by
    rw [find?_map_key (fun b => b.blogId == blogId)
      (fun b => if b.blogId == blogId then { b with likesCount := b.likesCount + 1 } else b)
      (fun x => by by_cases hx : (x.blogId == blogId) = true <;> simp [hx]) db.blogs]
    rw [hfind]
    simp [hb]
  have hr1 : BlogsService.LikeBlog db blogId cu id1 =
      ({ db with
          likes := db.likes ++ [{ likeId := id1, refId := blogId, userId := cu.userId }],
          blogs := db.blogs.map (fun b => if b.blogId == blogId
            then { b with likesCount := b.likesCount + 1 } else b),
          usersStats := db.usersStats.map (fun s => if s.userId == cu.userId
            then { s with totalLikes := s.totalLikes + 1 } else s) },
        .ok { liked := true, likesCount := blog.likesCount + 1 }) := by
    simp only [BlogsService.LikeBlog, hauth, Bool.not_true, Bool.false_eq_true, if_false,
      hnolike, updateBlogs, updateUsersStats, h2]
  have hfl : (List.find? (fun l => l.userId == cu.userId && l.refId == blogId)
      (db.likes ++ [({ likeId := id1, refId := blogId, userId := cu.userId } : Like)])) =
      some { likeId := id1, refId := blogId, userId := cu.userId } := by
    rw [List.find?_append, hnolike]
    simp
  rw [hr1]
  simp only [BlogsService.LikeBlog, hauth, Bool.not_true, Bool.false_eq_true, if_false,
    hfl, updateBlogs, updateUsersStats, hid]
  refine ⟨by trivial, by trivial, ?_, ?_⟩
  · exact map_map_id _ _
      (fun x => by by_cases hx : (x.blogId == blogId) = true <;> simp [hx]) db.blogs
  · exact map_map_id _ _
      (fun x => by by_cases hx : (x.userId == cu.userId) = true <;> simp [hx]) db.usersStats

/-- C5 (witness): the round trip on a concrete database with one blog. -/
theorem C5_like_unlike_roundtrip_witness :
    (BlogsService.LikeBlog dbBlogWorld "b1"
      { userId := "u1", roles := [], isAuthenticated := true } "lk1").2 =
      .ok { liked := true, likesCount := 2 } :=
  (C5_like_unlike_roundtrip dbBlogWorld "b1"
    { userId := "u1", roles := [], isAuthenticated := true } "lk1" "lk2"
    { blogId := "b1", userId := "u1", likesCount := 1,
      commentsCount := 1, sharesCount := 1, viewsCount := 0 }
    (by decide) (by decide) (by decide) (by decide)).1

/-- C6: following then unfollowing (no prior edge, fresh edge id, no injected
failures) creates then deletes the Follow row and restores every stats row —
`followers_count` and `followings_count` return to their original values. -/
theorem C6_follow_unfollow_roundtrip (db : DB) (a b id1 id2 : String)
    (hnone : db.follows.find? (fun fl => fl.followerId == a && fl.followingId == b) = none)
    (hfresh : ∀ fl ∈ db.follows, (fl.followId == id1) = false) :
    (UsersService.FollowUnfollowUser db a b id1 noFollowFailures).2 =
      .ok { followed := true } ∧
    (UsersService.FollowUnfollowUser
      (UsersService.FollowUnfollowUser db a b id1 noFollowFailures).1
      a b id2 noFollowFailures).2 = .ok { followed := false } ∧
    (UsersService.FollowUnfollowUser
      (UsersService.FollowUnfollowUser db a b id1 noFollowFailures).1
      a b id2 noFollowFailures).1.follows = db.follows ∧
    (UsersService.FollowUnfollowUser
      (UsersService.FollowUnfollowUser db a b id1 noFollowFailures).1
      a b id2 noFollowFailures).1.usersStats = db.usersStats := by
  have hr1 : UsersService.FollowUnfollowUser db a b id1 noFollowFailures =
      ({ db with
          follows := db.follows ++ [{ followId := id1, followerId := a, followingId := b }],
          usersStats := (db.usersStats.map (fun s => if s.userId == b
              then { s with followersCount := s.followersCount + 1 } else s)).map
            (fun s => if s.userId == a
              then { s with followingsCount := s.followingsCount + 1 } else s) },
        .ok { followed := true }) := by
    simp only [UsersService.FollowUnfollowUser, hnone, noFollowFailures, Bool.false_eq_true,
      if_false, updateUsersStats]
  have hf2 : List.find? (fun fl => fl.followerId == a && fl.followingId == b)
      (db.follows ++ [({ followId := id1, followerId := a, followingId := b } : Follow)]) =
      some { followId := id1, followerId := a, followingId := b } := by
    rw [List.find?_append, hnone]
    simp
  rw [hr1]
  simp only [UsersService.FollowUnfollowUser, hf2, noFollowFailures, Bool.false_eq_true,
    if_false, updateUsersStats]
  refine ⟨by trivial, by trivial, ?_, ?_⟩
  · rw [List.filter_append]
    have h1 : db.follows.filter (fun x => !(x.followId == id1)) = db.follows :=
      List.filter_eq_self.mpr (fun x hx => by simp [hfresh x hx])
    simp [h1]
  · rw [List.map_map, List.map_map, List.map_map]
    refine (List.map_congr_left ?_).trans (List.map_id _)
    intro x _
    simp only [Function.comp_apply, id_eq]
    by_cases h1 : (x.userId == b) = true <;> by_cases h2 : (x.userId == a) = true <;>
      simp [h1, h2]

/-- C6 (witness): the round trip between two concrete users with stats rows. -/
theorem C6_follow_unfollow_roundtrip_witness :
    (UsersService.FollowUnfollowUser dbTwoStats "a" "b" "f1" noFollowFailures).2 =
      .ok { followed := true } :=
  (C6_follow_unfollow_roundtrip dbTwoStats "a" "b" "f1" "f2" (by decide) (by decide)).1

/-- C10: with the Follow-row mutation succeeding, `FollowUnfollowUser`
returns a success response whatever happens to the two counter updates: the
row change persists, and a failed `followers_count` (resp. `followings_count`)
update leaves every `followers_count` (resp. `followings_count`) value
untouched while the function still reports success — the counters are left
skewed with a nil error. -/
theorem C10_follow_counter_errors_swallowed (db : DB) (a b id : String) (tS aS : Bool) :
    (UsersService.FollowUnfollowUser db a b id
        { rowOp := false, followersUpdate := tS, followingsUpdate := aS }).2 =
      .ok { followed :=
        (db.follows.find? (fun fl => fl.followerId == a && fl.followingId == b)).isNone } ∧
    (db.follows.find? (fun fl => fl.followerId == a && fl.followingId == b) = none →
      (UsersService.FollowUnfollowUser db a b id
        { rowOp := false, followersUpdate := tS, followingsUpdate := aS }).1.follows =
        db.follows ++ [{ followId := id, followerId := a, followingId := b }]) ∧
    (∀ fl, db.follows.find? (fun x => x.followerId == a && x.followingId == b) = some fl →
      (UsersService.FollowUnfollowUser db a b id
        { rowOp := false, followersUpdate := tS, followingsUpdate := aS }).1.follows =
        db.follows.filter (fun x => !(x.followId == fl.followId))) ∧
    (tS = true →
      (UsersService.FollowUnfollowUser db a b id
        { rowOp := false, followersUpdate := tS, followingsUpdate := aS }).1.usersStats.map
          UsersStats.followersCount = db.usersStats.map UsersStats.followersCount) ∧
    (aS = true →
      (UsersService.FollowUnfollowUser db a b id
        { rowOp := false, followersUpdate := tS, followingsUpdate := aS }).1.usersStats.map
          UsersStats.followingsCount = db.usersStats.map UsersStats.followingsCount) := by
  refine ⟨?_, ?_, ?_, ?_, ?_⟩
  · cases hf : db.follows.find? (fun fl => fl.followerId == a && fl.followingId == b) with
    | none => cases tS <;> cases aS <;>
        simp [UsersService.FollowUnfollowUser, hf, updateUsersStats]
    | some fl => cases tS <;> cases aS <;>
        simp [UsersService.FollowUnfollowUser, hf, updateUsersStats]
  · intro hf
    cases tS <;> cases aS <;>
      simp [UsersService.FollowUnfollowUser, hf, updateUsersStats]
  · intro fl hf
    cases tS <;> cases aS <;>
      simp [UsersService.FollowUnfollowUser, hf, updateUsersStats]
  · intro htS
    subst htS
    cases hf : db.follows.find? (fun fl => fl.followerId == a && fl.followingId == b) <;>
      cases aS <;>
      simp [UsersService.FollowUnfollowUser, hf, updateUsersStats] <;>
      (intro s _; by_cases hs : s.userId = a <;> simp [hs])
  · intro haS
    subst haS
    cases hf : db.follows.find? (fun fl => fl.followerId == a && fl.followingId == b) <;>
      cases tS <;>
      simp [UsersService.FollowUnfollowUser, hf, updateUsersStats] <;>
      (intro s _; by_cases hs : s.userId = b <;> simp [hs])

/-- C10 (witness): with both counter updates failing on a concrete database,
the edge is still created and both counter columns stay untouched. -/
theorem C10_follow_counter_errors_swallowed_witness :
    (UsersService.FollowUnfollowUser dbTwoStats "a" "b" "f1"
      { rowOp := false, followersUpdate := true, followingsUpdate := true }).1.follows =
      dbTwoStats.follows ++ [{ followId := "f1", followerId := "a", followingId := "b" }] ∧
    (UsersService.FollowUnfollowUser dbTwoStats "a" "b" "f1"
      { rowOp := false, followersUpdate := true, followingsUpdate := true }).1.usersStats.map
        UsersStats.followersCount = dbTwoStats.usersStats.map UsersStats.followersCount :=
  ⟨(C10_follow_counter_errors_swallowed dbTwoStats "a" "b" "f1" true true).2.1 (by decide),
   (C10_follow_counter_errors_swallowed dbTwoStats "a" "b" "f1" true true).2.2.2.1 rfl⟩

theorem parseBearerToken_empty : parseBearerToken "" = none := by decide

theorem auth_beq_empty_false {a tok : String} (hp : parseBearerToken a = some tok) :
    (a == "") = false := by
  by_cases he : a = ""
  · subst he
    rw [parseBearerToken_empty] at hp
    simp at hp
  · exact beq_eq_false_iff_ne.mpr he

theorem roleGuard_rejects401 (allowed : List String) :
    guardRejects401 (roleGuard allowed) := by
  intro jwt db req
  refine ⟨?_, ?_, ?_, ?_⟩
  · intro h
    simp [roleGuard, h]
  · intro hne hp
    have hb : (req.authorization == "") = false := beq_eq_false_iff_ne.mpr hne
    simp [roleGuard, hb, hp]
  · intro tok hp hj
    have hb := auth_beq_empty_false hp
    simp [roleGuard, hb, hp, resolveTokenUser, hj]
  · intro tok td uid hp hj hu hf
    have hb := auth_beq_empty_false hp
    simp [roleGuard, hb, hp, resolveTokenUser, hj, hu, hf]

theorem roleGuard_forbids403 (allowed : List String) :
    guardForbids403 (roleGuard allowed) allowed := by
  intro jwt db req tok td uid u hp hj hu hf hroles
  have hb := auth_beq_empty_false hp
  simp [roleGuard, hb, hp, resolveTokenUser, hj, hu, hf]
  simpa using hroles

/-- C1 (amended): the four strict guards (AdminGuard, BusinessOwnerGuard,
PaymentAgentGuard, SuperAdminGuard) implement the claim exactly: 401 for a
missing header, a malformed Bearer value, a failed token validation or an
unknown userId, and 403 when the user's role set misses the guard's allowed
set.  AuthenticatedGuard implements the 401 ladder but never returns 403 (its
role check is commented out): any resolved user passes, with
`isAuthenticated` recording whether a recognized role is held.
AnonymousGuard passes a missing header through as an anonymous pseudo-user
instead of rejecting it, and applies the 401/403 ladder only when a header is
present on a non-skip-listed URL. -/
theorem C1_guard_failure_modes :
    (guardRejects401 AdminGuard ∧
      guardForbids403 AdminGuard [roleNameAdmin, roleNameSuperAdmin]) ∧
    (guardRejects401 BusinessOwnerGuard ∧
      guardForbids403 BusinessOwnerGuard
        [roleNameBusinessOwner, roleNameAdmin, roleNameSuperAdmin]) ∧
    (guardRejects401 PaymentAgentGuard ∧
      guardForbids403 PaymentAgentGuard
        [roleNamePaymentAgent, roleNameAdmin, roleNameSuperAdmin]) ∧
    (guardRejects401 SuperAdminGuard ∧
      guardForbids403 SuperAdminGuard [roleNameSuperAdmin]) ∧
    guardRejects401 AuthenticatedGuard ∧
    (∀ (jwt : JwtDecoder) (db : DB) (req : Request) tok td uid u,
      parseBearerToken req.authorization = some tok → jwt tok = some td →
      td.userId = some uid → db.users.find? (fun x => x.userId == uid) = some u →
      AuthenticatedGuard jwt db req =
        .next (some
          { userId := u.userId, roles := u.roles,
            isAuthenticated := u.roles.any (fun r => authenticatedValidRoles.contains r) })) ∧
    (∀ (jwt : JwtDecoder) (db : DB) (req : Request),
      anonymousSkipList.any (fun sub => goContains req.url sub) = false →
      req.authorization = "" →
      AnonymousGuard jwt db req =
        .next (some { userId := "", roles := [roleNameAnonymous], isAuthenticated := false })) ∧
    anonymousGuardFailureModes := by
  refine ⟨⟨roleGuard_rejects401 _, roleGuard_forbids403 _⟩,
    ⟨roleGuard_rejects401 _, roleGuard_forbids403 _⟩,
    ⟨roleGuard_rejects401 _, roleGuard_forbids403 _⟩,
    ⟨roleGuard_rejects401 _, roleGuard_forbids403 _⟩,
    ?_, ?_, ?_, ?_⟩
  · intro jwt db req
    refine ⟨?_, ?_, ?_, ?_⟩
    · intro h
      simp [AuthenticatedGuard, h]
    · intro hne hp
      have hb : (req.authorization == "") = false := beq_eq_false_iff_ne.mpr hne
      simp [AuthenticatedGuard, hb, hp]
    · intro tok hp hj
      have hb := auth_beq_empty_false hp
      simp [AuthenticatedGuard, hb, hp, resolveTokenUser, hj]
    · intro tok td uid hp hj hu hf
      have hb := auth_beq_empty_false hp
      simp [AuthenticatedGuard, hb, hp, resolveTokenUser, hj, hu, hf]
  · intro jwt db req tok td uid u hp hj hu hf
    have hb := auth_beq_empty_false hp
    simp [AuthenticatedGuard, hb, hp, resolveTokenUser, hj, hu, hf]
  · intro jwt db req hskip hempty
    simp [AnonymousGuard, hskip, hempty]
  · intro jwt db req hskip hne
    have hb : (req.authorization == "") = false := beq_eq_false_iff_ne.mpr hne
    refine ⟨?_, ?_, ?_, ?_⟩
    · intro hp
      simp [AnonymousGuard, hskip, hb, hp]
    · intro tok hp hj
      simp [AnonymousGuard, hskip, hb, hp, resolveTokenUser, hj]
    · intro tok td uid hp hj hu hf
      simp [AnonymousGuard, hskip, hb, hp, resolveTokenUser, hj, hu, hf]
    · intro tok td uid u hp hj hu hf hroles
      simp [AnonymousGuard, hskip, hb, hp, resolveTokenUser, hj, hu, hf]
      simpa using hroles

/-- C1 (witness): the amended failure modes exercised on concrete requests:
AdminGuard rejects a missing header with 401, AuthenticatedGuard rejects an
invalid token with 401, AnonymousGuard passes a missing header through. -/
theorem C1_guard_failure_modes_witness :
    AdminGuard (fun _ => none) emptyDB { authorization := "", url := "/users" } =
      .reject 401 ∧
    AuthenticatedGuard (fun _ => none) emptyDB
      { authorization := "Bearer x", url := "/users" } = .reject 401 ∧
    AnonymousGuard (fun _ => none) emptyDB { authorization := "", url := "/blogs/b1" } =
      .next (some { userId := "", roles := [roleNameAnonymous], isAuthenticated := false }) :=
  ⟨(C1_guard_failure_modes.1.1 (fun _ => none) emptyDB
      { authorization := "", url := "/users" }).1 rfl,
   (C1_guard_failure_modes.2.2.2.2.1 (fun _ => none) emptyDB
      { authorization := "Bearer x", url := "/users" }).2.2.1 "x" (by decide) rfl,
   C1_guard_failure_modes.2.2.2.2.2.2.1 (fun _ => none) emptyDB
      { authorization := "", url := "/blogs/b1" } (by decide) rfl⟩

/-- C1 (counterexample): the claim as stated is false — a missing
Authorization header does NOT yield 401 on AnonymousGuard (it passes through
as an anonymous pseudo-user), and AuthenticatedGuard does NOT yield 403 for a
valid token of an existing user holding none of the recognized roles (it
passes the user through with `isAuthenticated = false`). -/
theorem C1_guard_failure_modes_counterexample :
    AnonymousGuard (fun _ => none) emptyDB { authorization := "", url := "/blogs/b1" } ≠
      .reject 401 ∧
    AuthenticatedGuard (fun t => if t == "tok1" then some { userId := some "u1" } else none)
      { emptyDB with users := [{ userId := "u1", roles := [] }] }
      { authorization := "Bearer tok1", url := "/users" } ≠ .reject 403 ∧
    AuthenticatedGuard (fun t => if t == "tok1" then some { userId := some "u1" } else none)
      { emptyDB with users := [{ userId := "u1", roles := [] }] }
      { authorization := "Bearer tok1", url := "/users" } =
      .next (some { userId := "u1", roles := [], isAuthenticated := false }) := by
  decide

/-- C9: on the unlike path (a Like row for the caller and blog already
exists) `LikeBlog` reports `likesCount = 0` whatever the blog's stored
`likes_count` is, because the `blog` variable is never loaded on that path;
the `liked` field is the Go comparison `like.LikeId == ""` on the loaded
row. -/
theorem C9_unlike_returns_zero_count (db : DB) (blogId : String) (cu : ICurrentUser)
    (newLikeId : String) (like : Like)
    (hauth : cu.isAuthenticated = true)
    (hlike : db.likes.find? (fun l => l.userId == cu.userId && l.refId == blogId) = some like) :
    (BlogsService.LikeBlog db blogId cu newLikeId).2 =
      .ok { liked := (like.likeId == ""), likesCount := 0 } := by
  simp only [BlogsService.LikeBlog, hauth, Bool.not_true, Bool.false_eq_true, if_false, hlike]

/-- C9 (witness): unliking a blog whose stored `likes_count` is 5 still
returns `likesCount = 0`. -/
theorem C9_unlike_returns_zero_count_witness :
    (BlogsService.LikeBlog dbLiked "b1"
      { userId := "u1", roles := [], isAuthenticated := true } "x").2 =
      .ok { liked := false, likesCount := 0 } := by
  rw [C9_unlike_returns_zero_count dbLiked "b1"
    { userId := "u1", roles := [], isAuthenticated := true } "x"
    { likeId := "l1", refId := "b1", userId := "u1" } (by decide) (by decide)]
  rfl

/-- C8 (counterexample): the claim promises exactly one parent-counter
decrement for every existing comment, but a comment whose `ref_id` matches
neither a Blog row nor a Comment row (the state a dangling reply is left in
after its parent was cascade-deleted) is deleted successfully while NO
counter changes: the blog table is untouched and no comment row with
`comment_id = ref_id` exists to receive the `replies_count` decrement. -/
theorem C8_comment_delete_counterexample :
    (dbDangling.comments.find? (fun c => c.commentId == "c1")).isSome = true ∧
    dbDangling.blogs.find? (fun b => b.blogId == "gone") = none ∧
    (BlogsService.DeleteComment dbDangling "c1").2 = none ∧
    (BlogsService.DeleteComment dbDangling "c1").1.blogs = dbDangling.blogs ∧
    (BlogsService.DeleteComment dbDangling "c1").1.comments = [] := by
  decide

/-- C8 (amended): deleting an existing comment succeeds and decrements AT
MOST one parent counter, resolved blog-first: when `ref_id` matches a Blog
row, that blog's `comments_count` is decremented and no comment's
`replies_count` changes (the surviving comment rows are exactly the original
ones minus the replies and the deleted row, with unchanged counters);
otherwise the decrement is mapped over the comments whose `comment_id` equals
`ref_id` — zero rows when no such comment exists — with the blog table
untouched; a comment with an empty `ref_id` decrements nothing. -/
theorem C8_comment_delete_resolution (db : DB) (commentId : String) (comment : Comment)
    (hfind : db.comments.find? (fun c => c.commentId == commentId) = some comment) :
    (BlogsService.DeleteComment db commentId).2 = none ∧
    ((comment.refId == "") = false →
      ∀ blog0, db.blogs.find? (fun b => b.blogId == comment.refId) = some blog0 →
      (BlogsService.DeleteComment db commentId).1.blogs =
        db.blogs.map (fun b => if b.blogId == comment.refId
          then { b with commentsCount := b.commentsCount - 1 } else b) ∧
      (BlogsService.DeleteComment db commentId).1.comments =
        (db.comments.filter (fun c => !(c.refId == commentId))).filter
          (fun c => !(c.commentId == commentId))) ∧
    ((comment.refId == "") = false →
      db.blogs.find? (fun b => b.blogId == comment.refId) = none →
      (BlogsService.DeleteComment db commentId).1.blogs = db.blogs ∧
      (BlogsService.DeleteComment db commentId).1.comments =
        ((db.comments.filter (fun c => !(c.refId == commentId))).map
          (fun c => if c.commentId == comment.refId
            then { c with repliesCount := c.repliesCount - 1 } else c)).filter
          (fun c => !(c.commentId == commentId))) ∧
    ((comment.refId == "") = true →
      (BlogsService.DeleteComment db commentId).1.blogs = db.blogs ∧
      (BlogsService.DeleteComment db commentId).1.comments =
        (db.comments.filter (fun c => !(c.refId == commentId))).filter
          (fun c => !(c.commentId == commentId))) := by
  refine ⟨?_, ?_, ?_, ?_⟩
  · simp [BlogsService.DeleteComment, hfind]
  · intro h1 blog0 hb
    simp [BlogsService.DeleteComment, hfind, h1, hb, updateBlogs, updateComments]
  · intro h1 hb
    simp [BlogsService.DeleteComment, hfind, h1, hb, updateBlogs, updateComments]
  · intro h1
    simp [BlogsService.DeleteComment, hfind, h1]

/-- C8 (witness): deleting a reply on a concrete database succeeds. -/
theorem C8_comment_delete_resolution_witness :
    (dbCommented.comments.find? (fun c => c.commentId == "c2") =
      some { commentId := "c2", refId := "c1", userId := "u3",
             likesCount := 0, repliesCount := 0 }) ∧
    (BlogsService.DeleteComment dbCommented "c2").2 = none :=
  ⟨by decide,
    (C8_comment_delete_resolution dbCommented "c2"
      { commentId := "c2", refId := "c1", userId := "u3",
        likesCount := 0, repliesCount := 0 } (by decide)).1⟩

end Phinex
